import Mathlib

/-!
Verification development for the agentic Facebook-ads analyst pipeline.

This file shallowly embeds the parts of the repository that the checked
properties are about:

* the statistical evaluator, `src/agents/evaluator_agent.py`
  (`EvaluatorAgent.execute`, `_validate_hypothesis`, `_create_insight`,
  `_suggest_focus_areas`);
* the orchestration loop, `src/workflows/main_workflow.py`
  (`AgenticOrchestrator.execute`, `_create_final_report`,
  `_generate_executive_summary`);
* the finalization step of the recommendation generator,
  `src/agents/creative_generator.py` (`CreativeGeneratorAgent.execute`,
  lines 84-113).

Modelling conventions: Python floats are modelled as `Rat`; a pandas data
frame is a column schema plus a list of rows; Python exceptions are an
explicit error type threaded through `Except`; the scipy statistical
kernel (`stats.ttest_ind` plus the Cohen-d computation, which is real
arithmetic with a square root) is abstracted as a parameter of type
`StatKernel`.
-/

/-- Python exception kinds that the embedded code can raise. -/
inductive PyError where
  | keyError (key : String)
  | zeroDivisionError
  | valueError (msg : String)
  | validationError (msg : String)
  | otherError (msg : String)
deriving DecidableEq, Repr

/-- The message text `str(e)` that gets embedded in verdicts.  (Python would
render a `KeyError` with quotes around the key; that decoration is
immaterial to every property below and is dropped.) -/
def PyError.message : PyError → String
  | .keyError k => k
  | .zeroDivisionError => "division by zero"
  | .valueError m => m
  | .validationError m => m
  | .otherError m => m

/-- Round to the nearest integer, ties to even: the semantics of the Python
builtin `round` (on exact values). -/
def roundHalfEven (q : Rat) : Int :=
  let f : Int := Int.floor q
  let frac : Rat := q - (f : Rat)
  if frac < 1/2 then f
  else if 1/2 < frac then f + 1
  else if f % 2 = 0 then f else f + 1

/-- Python `round(x, dp)`. -/
def roundTo (dp : Nat) (q : Rat) : Rat :=
  ((roundHalfEven (q * (10 : Rat) ^ dp) : Int) : Rat) / (10 : Rat) ^ dp

/-- One data-frame row: a date (days, since only ordering and distinctness
matter), string-valued dimension cells and numeric metric cells. -/
structure Row where
  date : Nat
  dims : List (String × String)
  metrics : List (String × Rat)
deriving DecidableEq, Repr

/-- A pandas data frame: the column schema decides which lookups raise
`KeyError` (column access in pandas is column-level, not row-level). -/
structure DataFrame where
  dimCols : List String
  metricCols : List String
  rows : List Row
deriving DecidableEq, Repr

/-- Cell access for a dimension column (defined rows are assumed to carry the
schema columns; absent cells read as the empty string). -/
def Row.dimVal (r : Row) (c : String) : String := (r.dims.lookup c).getD ""

/-- Cell access for a metric column. -/
def Row.metricVal (r : Row) (c : String) : Rat := (r.metrics.lookup c).getD 0

/-- `HypothesisStatus` from `src/utils/validators.py`. -/
inductive HypothesisStatus where
  | validated
  | rejected
  | needsMoreData
deriving DecidableEq, Repr

/-- `ConfidenceLevel` from `src/utils/validators.py`. -/
inductive ConfidenceLevel where
  | high
  | medium
  | low
deriving DecidableEq, Repr

/-- The `expected_direction` literal of a hypothesis. -/
inductive Direction where
  | increase
  | decrease
  | change
deriving DecidableEq, Repr

/-- `Hypothesis` from `src/utils/validators.py`. -/
structure Hypothesis where
  hypothesisId : String
  statement : String
  rationale : String
  metricToTest : String
  expectedDirection : Direction
  segmentDimension : Option String := none
  segmentValue : Option String := none
  confidence : ConfidenceLevel
  supportingEvidence : List String := []
deriving DecidableEq, Repr

/-- `ValidationResult` from `src/utils/validators.py`.  The pydantic
field validator rounds `confidence_score` to 3 decimals at construction;
each construction site below already supplies a 3-decimal value. -/
structure ValidationResult where
  hypothesisId : String
  status : HypothesisStatus
  confidenceScore : Rat
  statisticalTest : Option String := none
  pValue : Option Rat := none
  effectSize : Option Rat := none
  supportingMetrics : List (String × Rat) := []
  verdict : String
  actionability : String
deriving DecidableEq, Repr

/-- `Insight` from `src/utils/validators.py` (the fields produced by
`EvaluatorAgent._create_insight`). -/
structure Insight where
  insightId : String
  title : String
  description : String
  hypothesis : Hypothesis
  validation : ValidationResult
  impactScore : Rat
  estimatedRevenueImpact : Rat
  category : String
  urgency : String
  periodStart : Nat
  periodEnd : Nat
  affectedCampaigns : List String
deriving DecidableEq, Repr

/-- `EvaluatorOutput` from `src/utils/validators.py`. -/
structure EvaluatorOutput where
  validationResults : List ValidationResult
  validatedInsights : List Insight
  rejectedHypotheses : List String
  needsReplan : Bool
  replanReason : Option String
  suggestedFocusAreas : List String
deriving DecidableEq, Repr

/-- Abstraction of the real-arithmetic statistical kernel of
`_validate_hypothesis` lines 124-131: `scipy.stats.ttest_ind` on the two
metric columns followed by the Cohen-d computation (square roots and the
Student-t distribution are not rational).  Given the metric values of
group A and group B it returns `(p_value, effect_size)`, or an exception
(e.g. for non-numeric data). -/
def StatKernel : Type := List Rat → List Rat → Except PyError (Rat × Rat)

/-- Python truthiness of an optional string: `None` and `""` are falsy.
`_validate_hypothesis` line 105 tests `if hypothesis.segment_dimension and
hypothesis.segment_value:`. -/
def pyTruthy : Option String → Bool
  | none => false
  | some s => decide (s ≠ "")

/-- The fallback positional split of `_validate_hypothesis` lines 109-112:
first half of the rows against the second half. -/
def positionalSplit (df : DataFrame) : List Row × List Row :=
  (df.rows.take (df.rows.length / 2), df.rows.drop (df.rows.length / 2))

/-- Group partition, `_validate_hypothesis` lines 104-112.  On the segment
path, `df[dim]` raises `KeyError` when the column is absent. -/
def groupsOf (hyp : Hypothesis) (df : DataFrame) : Except PyError (List Row × List Row) :=
  match hyp.segmentDimension, hyp.segmentValue with
  | some d, some v =>
    if d = "" ∨ v = "" then Except.ok (positionalSplit df)
    else if d ∈ df.dimCols then
      Except.ok (df.rows.filter (fun r => decide (r.dimVal d = v)),
                 df.rows.filter (fun r => decide (¬ r.dimVal d = v)))
    else Except.error (PyError.keyError d)
  | _, _ => Except.ok (positionalSplit df)

/-- Extraction of a metric column from a group slice (`group[metric]`,
line 125): `KeyError` when the metric is not a column of the frame. -/
def metricCol (df : DataFrame) (g : List Row) (m : String) : Except PyError (List Rat) :=
  if m ∈ df.metricCols then Except.ok (g.map (fun r => r.metricVal m))
  else Except.error (PyError.keyError m)

/-- Arithmetic mean of a metric column (pandas `.mean()`); only applied to
groups that passed the sample-size gate, hence nonempty. -/
def listMean (l : List Rat) : Rat := l.sum / (l.length : Rat)

/-- Plain rendering of a rational for verdict strings.  It stands in for the
fixed-point float formatting of the Python f-strings; per the spec the
exact wording of verdicts is presentation only. -/
def fmtRat (q : Rat) : String := toString q.num ++ "/" ++ toString q.den

/-- Scoring and classification, `_validate_hypothesis` lines 127-166 after
the statistical kernel returned `(p, d)`: the three confidence terms, the
weighted sum rounded to 3 decimals, and the validated/rejected split. -/
def classify (hyp : Hypothesis) (p d : Rat) (va vb : List Rat) (na nb : Nat) : ValidationResult :=
  let meanA := listMean va
  let meanB := listMean vb
  let sigScore : Rat := if p < 1/20 then 1 else if p < 1/10 then 1/2 else 0
  let effScore : Rat := if 1/2 < d then 1 else if 3/10 < d then 3/5 else 3/10
  let sampScore : Rat := if 100 < min na nb then 1 else 7/10
  let conf := roundTo 3 (2/5 * sigScore + 2/5 * effScore + 1/5 * sampScore)
  let segLabelA := if pyTruthy hyp.segmentValue then hyp.segmentValue.getD "" else "Group A"
  let segLabelT := if pyTruthy hyp.segmentValue then hyp.segmentValue.getD "" else "this segment"
  let metricsList := [("group_a_mean", roundTo 3 meanA), ("group_b_mean", roundTo 3 meanB),
    ("difference", roundTo 3 |meanA - meanB|), ("sample_size_a", (na : Rat)),
    ("sample_size_b", (nb : Rat))]
  if p < 1/20 ∧ 3/10 < d then
    { hypothesisId := hyp.hypothesisId
      status := HypothesisStatus.validated
      confidenceScore := conf
      statisticalTest := some "independent t-test"
      pValue := some (roundTo 4 p)
      effectSize := some (roundTo 3 d)
      supportingMetrics := metricsList
      verdict := "Hypothesis validated: " ++ segLabelA ++ " shows " ++ fmtRat |meanA - meanB|
        ++ " " ++ hyp.metricToTest ++ " difference (p=" ++ fmtRat p ++ ", d=" ++ fmtRat d ++ ")"
      actionability := "Statistically significant result. "
        ++ (if meanB < meanA then "Scale" else "Optimize") ++ " " ++ segLabelT }
  else
    { hypothesisId := hyp.hypothesisId
      status := HypothesisStatus.rejected
      confidenceScore := conf
      statisticalTest := some "independent t-test"
      pValue := some (roundTo 4 p)
      effectSize := some (roundTo 3 d)
      supportingMetrics := metricsList
      verdict := "Hypothesis rejected: No significant difference found (p=" ++ fmtRat p
        ++ ", effect_size=" ++ fmtRat d ++ ")"
      actionability := "Focus on other hypotheses with stronger evidence" }

/-- The body of the `try` block of `_validate_hypothesis` (lines 101-166):
partition, sample-size gate, metric extraction, statistical kernel,
classification.  Exceptions travel in the error component. -/
def validateHypothesisInner (k : StatKernel) (hyp : Hypothesis) (df : DataFrame) :
    Except PyError ValidationResult :=
  match groupsOf hyp df with
  | Except.error e => Except.error e
  | Except.ok (ga, gb) =>
    if ga.length < 30 ∨ gb.length < 30 then
      Except.ok
        { hypothesisId := hyp.hypothesisId
          status := HypothesisStatus.needsMoreData
          confidenceScore := 3/10
          verdict := "Insufficient sample size (n_a=" ++ toString ga.length
            ++ ", n_b=" ++ toString gb.length ++ ")"
          actionability := "Collect more data before drawing conclusions" }
    else
      match metricCol df ga hyp.metricToTest with
      | Except.error e => Except.error e
      | Except.ok va =>
        match metricCol df gb hyp.metricToTest with
        | Except.error e => Except.error e
        | Except.ok vb =>
          match k va vb with
          | Except.error e => Except.error e
          | Except.ok (p, d) => Except.ok (classify hyp p d va vb ga.length gb.length)

/-- `_validate_hypothesis` with its `except Exception` handler (lines
168-180): any exception becomes a `needs_more_data` result with confidence
0.0 and the message embedded in the verdict. -/
def validateHypothesis (k : StatKernel) (hyp : Hypothesis) (df : DataFrame) : ValidationResult :=
  match validateHypothesisInner k hyp df with
  | Except.ok r => r
  | Except.error e =>
    { hypothesisId := hyp.hypothesisId
      status := HypothesisStatus.needsMoreData
      confidenceScore := 0
      verdict := "Validation failed: " ++ e.message
      actionability := "Unable to validate with current data" }

/-- `_create_insight` (lines 182-217).  It runs outside the per-hypothesis
exception handler, so its own column accesses can raise: `df['revenue']`
(line 199), the division by the number of distinct dates (line 199), and
`df['campaign_name']` (line 216).  `List.dedup` stands in for pandas
`unique` (only the set of distinct values matters below). -/
def createInsight (df : DataFrame) (hyp : Hypothesis) (v : ValidationResult) :
    Except PyError Insight :=
  if "revenue" ∈ df.metricCols then
    let revSum := (df.rows.map (fun r => r.metricVal "revenue")).sum
    let numDays := (df.rows.map Row.date).dedup.length
    if numDays = 0 then Except.error PyError.zeroDivisionError
    else if "campaign_name" ∈ df.dimCols then
      let avgDailyRevenue := revSum / (numDays : Rat)
      Except.ok
        { insightId := "insight_" ++ hyp.hypothesisId
          title := hyp.statement.take 80
          description := hyp.rationale
          hypothesis := hyp
          validation := v
          impactScore := roundTo 1 (v.confidenceScore * 10)
          estimatedRevenueImpact := roundTo 2 (avgDailyRevenue * (1/10) * v.confidenceScore)
          category := "performance"
          urgency := if 4/5 < v.confidenceScore then "high" else "medium"
          periodStart := (df.rows.map Row.date).foldr min ((df.rows.map Row.date).headD 0)
          periodEnd := (df.rows.map Row.date).foldr max ((df.rows.map Row.date).headD 0)
          affectedCampaigns := ((df.rows.map (fun r => r.dimVal "campaign_name")).dedup).take 3 }
    else Except.error (PyError.keyError "campaign_name")
  else Except.error (PyError.keyError "revenue")

/-- `_suggest_focus_areas` (lines 219-236): two fixed suggestions when
strictly more than half of the results are rejected (Python float
division), otherwise nothing. -/
def suggestFocusAreas (rs : List ValidationResult) : List String :=
  let rejectedCount := (rs.filter (fun r => decide (r.status = HypothesisStatus.rejected))).length
  if (rs.length : Rat) / 2 < (rejectedCount : Rat) then
    ["Consider different analytical dimensions (e.g., time-based, audience-based)",
     "Look for interaction effects between variables"]
  else []

/-- The per-hypothesis loop of `EvaluatorAgent.execute` (lines 51-60),
returning `(validation_results, validated_insights, rejected_hypotheses)`
in order.  `_create_insight` runs unguarded, so its exceptions abort the
loop (and hence `execute`). -/
def evalLoop (k : StatKernel) (df : DataFrame) :
    List Hypothesis → Except PyError (List ValidationResult × List Insight × List String)
  | [] => Except.ok ([], [], [])
  | hyp :: rest =>
    let r := validateHypothesis k hyp df
    if r.status = HypothesisStatus.validated then
      match createInsight df hyp r with
      | Except.error e => Except.error e
      | Except.ok ins =>
        match evalLoop k df rest with
        | Except.error e => Except.error e
        | Except.ok (rs, inss, rejs) => Except.ok (r :: rs, ins :: inss, rejs)
    else
      match evalLoop k df rest with
      | Except.error e => Except.error e
      | Except.ok (rs, inss, rejs) => Except.ok (r :: rs, inss, hyp.hypothesisId :: rejs)

/-- `EvaluatorAgent.execute` (lines 28-85), after the data frame has been
loaded: run the loop, then assemble the `EvaluatorOutput` with the
replanning decision of lines 62-68. -/
def evaluatorExecute (k : StatKernel) (df : DataFrame) (hyps : List Hypothesis) :
    Except PyError EvaluatorOutput :=
  match evalLoop k df hyps with
  | Except.error e => Except.error e
  | Except.ok (rs, inss, rejs) =>
    let numValidated := inss.length
    Except.ok
      { validationResults := rs
        validatedInsights := inss
        rejectedHypotheses := rejs
        needsReplan := decide (numValidated < 2)
        replanReason :=
          if numValidated < 2 then
            some ("Only " ++ toString numValidated
              ++ " hypothesis validated. Need different analytical approach.")
          else none
        suggestedFocusAreas := suggestFocusAreas rs }

/-- The result of one call of `AgenticOrchestrator.execute`: either a final
report was returned (carrying the iteration count and the final evaluation
pass, from which Step 5 and the report are built), or the `RuntimeError` of
line 152 was raised after the while loop ended. -/
inductive OrchestratorResult where
  | report (totalIterations : Nat) (finalEval : EvaluatorOutput)
  | exhaustedError
deriving DecidableEq, Repr

/-- The while loop of `AgenticOrchestrator.execute` (main_workflow.py lines
79-152), compiled to structural recursion: `fuel` maintains the invariant
`fuel = maxReplans + 1 - iteration`, so `fuel = 0` is exactly the failure
of the loop condition `iteration <= self.max_replans`, at which point the
`RuntimeError` of line 152 is raised.  Each pass increments the iteration
counter, runs the agent pipeline (whose evaluation outcome for pass `i` is
`evalOutputs i`), and either restarts (line 124: `needs_replan` and
`iteration < max_replans`) or proceeds to recommendation generation and
returns the report (lines 128-148). -/
def orchLoop (evalOutputs : Nat → EvaluatorOutput) (maxReplans : Nat) :
    Nat → Nat → OrchestratorResult
  | _, 0 => OrchestratorResult.exhaustedError
  | iteration, fuel + 1 =>
    let it := iteration + 1
    let ev := evalOutputs it
    if ev.needsReplan = true ∧ it < maxReplans then orchLoop evalOutputs maxReplans it fuel
    else OrchestratorResult.report it ev

/-- `AgenticOrchestrator.execute`, abstracted over the per-pass evaluation
outcomes (the data, planner and insight agents feed the evaluator; only
the evaluator output drives the control flow). -/
def orchestratorExecute (evalOutputs : Nat → EvaluatorOutput) (maxReplans : Nat) :
    OrchestratorResult :=
  orchLoop evalOutputs maxReplans 0 (maxReplans + 1)

/-- `CreativeRecommendation` from `src/utils/validators.py`, restricted to
the fields the checked properties touch. -/
structure CreativeRecommendation where
  recommendationId : String
  action : String
  priorityScore : Rat
deriving DecidableEq, Repr

/-- `CreativeAnalysis` from `src/utils/validators.py` (the wall-clock
`analysis_date` and the numeric performance summary are omitted). -/
structure CreativeAnalysis where
  topPerformingCreatives : List String
  underperformingCreatives : List String
  winningPatterns : List String
  losingPatterns : List String
  recommendations : List CreativeRecommendation
deriving DecidableEq, Repr

/-- `FinalReport` from `src/utils/validators.py` (wall-clock fields and the
embedded data summary omitted). -/
structure FinalReport where
  originalQuery : String
  analysisPeriod : Nat × Nat
  executiveSummary : String
  keyInsights : List Insight
  creativeRecommendations : List CreativeRecommendation
  totalHypothesesTested : Nat
  validationSuccessRate : Rat
  totalIterations : Nat
deriving DecidableEq, Repr

/-- Python `max(iterable, key=f)`: the first element attaining the maximum
key (strict improvement replaces the accumulator). -/
def argmaxBy {α : Type} (f : α → Rat) : List α → Option α
  | [] => none
  | a :: l => some (l.foldl (fun b c => if f b < f c then c else b) a)

/-- `AgenticOrchestrator._generate_executive_summary` (lines 201-230). -/
def generateExecutiveSummary (insights : List Insight) (creative : CreativeAnalysis) : String :=
  match argmaxBy (fun i => i.impactScore) insights with
  | none => "No significant insights found in the analysis."
  | some top =>
    let base := "Analysis identified " ++ toString insights.length ++ " key insights. "
      ++ "Top finding: " ++ top.title ++ ". "
    match argmaxBy (fun r => r.priorityScore) creative.recommendations with
    | none => base
    | some topRec => base ++ "Primary recommendation: " ++ topRec.action ++ "."

/-- The count of line 184: results whose status is `validated` (statuses
are stored as their string values, so the comparison against the literal
`"validated"` is exactly a comparison against the enum member). -/
def validatedCount (rs : List ValidationResult) : Nat :=
  (rs.filter (fun r => decide (r.status = HypothesisStatus.validated))).length

/-- `AgenticOrchestrator._create_final_report` (lines 154-199): the success
rate is `validated_count / total` guarded against an empty denominator and
rounded to 2 decimals when stored in the report. -/
def createFinalReport (query : String) (period : Nat × Nat) (validatedInsights : List Insight)
    (creative : CreativeAnalysis) (totalIterations : Nat)
    (validationResults : List ValidationResult) : FinalReport :=
  let totalHypotheses := validationResults.length
  let vCount := validatedCount validationResults
  let successRate : Rat :=
    if 0 < totalHypotheses then (vCount : Rat) / (totalHypotheses : Rat) else 0
  { originalQuery := query
    analysisPeriod := period
    executiveSummary := generateExecutiveSummary validatedInsights creative
    keyInsights := validatedInsights
    creativeRecommendations := creative.recommendations
    totalHypothesesTested := totalHypotheses
    validationSuccessRate := roundTo 2 successRate
    totalIterations := totalIterations }

/-- Python `sum(xs) / len(xs)`: raises `ZeroDivisionError` on an empty
list. -/
def pyAverage (l : List Rat) : Except PyError Rat :=
  if l.length = 0 then Except.error PyError.zeroDivisionError
  else Except.ok (l.sum / (l.length : Rat))

/-- The finalization step of `CreativeGeneratorAgent.execute`
(creative_generator.py lines 84-113), entered once the response has been
parsed and each recommendation passed pydantic validation (so `recs` is
already typed).  Inside the `try` block the `CreativeAnalysis` is built and
the success log event computes `sum(r.priority_score ...) / len(...)`
(line 106), which raises `ZeroDivisionError` when there are zero
recommendations; the `except` clause catches only `ValidationError`,
re-raising it as `ValueError` (lines 111-113), so other exceptions
propagate unchanged. -/
def creativeGeneratorFinalize (validatedInsights : List Insight)
    (recs : List CreativeRecommendation)
    (topPerformers underperformers winning losing : List String) :
    Except PyError CreativeAnalysis :=
  let analysis : CreativeAnalysis :=
    { topPerformingCreatives := topPerformers
      underperformingCreatives := underperformers
      winningPatterns := winning
      losingPatterns := losing
      recommendations := recs }
  let insightCount := validatedInsights.length
  match pyAverage (recs.map CreativeRecommendation.priorityScore) with
  | Except.error (PyError.validationError m) =>
    Except.error (PyError.valueError ("Creative analysis validation failed: " ++ m))
  | Except.error e => Except.error e
  | Except.ok _ =>
    let _ := insightCount
    Except.ok analysis

/-- Decides whether an execution outcome is a raised `ValueError`. -/
def raisedValueError {α : Type} : Except PyError α → Bool
  | Except.error (PyError.valueError _) => true
  | _ => false

/-!  Concrete inputs used by witnesses and counterexamples.  -/

/-- A statistical kernel that is never consulted on the executed path. -/
def kernel0 : StatKernel := fun _ _ => Except.error (PyError.otherError "kernel unused")

/-- A kernel returning `p = 0.01`, `effect_size = 0.4` (a validating
outcome scipy can produce for well-separated groups). -/
def kernelW : StatKernel := fun _ _ => Except.ok (1/100, 2/5)

/-- The kernel outcome of the spec scenario of claim C6: `p = 0.018`,
`effect_size = 0.52`. -/
def kernel870 : StatKernel := fun _ _ => Except.ok (9/500, 13/25)

/-- A fully-featured row (creative type Image). -/
def rowA : Row :=
  { date := 1
    dims := [("creative_type", "Image"), ("campaign_name", "c1")]
    metrics := [("roas", 2), ("revenue", 5)] }

/-- A row for a frame with no revenue column (creative type Image). -/
def rowImg : Row :=
  { date := 1, dims := [("creative_type", "Image")], metrics := [("roas", 2)] }

/-- A row for a frame with no revenue column (creative type Video). -/
def rowVid : Row :=
  { date := 1, dims := [("creative_type", "Video")], metrics := [("roas", 1)] }

/-- The empty data frame. -/
def df0 : DataFrame := { dimCols := [], metricCols := [], rows := [] }

/-- A 60-row frame with all schema columns present. -/
def df60 : DataFrame :=
  { dimCols := ["creative_type", "campaign_name"]
    metricCols := ["roas", "revenue"]
    rows := List.replicate 60 rowA }

/-- A 10-row frame (too small for the sample-size gate). -/
def df10 : DataFrame :=
  { dimCols := ["creative_type", "campaign_name"]
    metricCols := ["roas", "revenue"]
    rows := List.replicate 10 rowA }

/-- A loadable 60-row frame lacking the `revenue` and `campaign_name`
columns used by `_create_insight` (loading only requires `date`). -/
def dfNoRev : DataFrame :=
  { dimCols := ["creative_type"]
    metricCols := ["roas"]
    rows := List.replicate 30 rowImg ++ List.replicate 30 rowVid }

/-- An Image row of the C6 scenario frame. -/
def rowImage870 : Row :=
  { date := 1, dims := [("creative_type", "Image")], metrics := [("roas", 5)] }

/-- A Video row of the C6 scenario frame. -/
def rowVideo870 : Row :=
  { date := 1, dims := [("creative_type", "Video")], metrics := [("roas", 3)] }

/-- The C6 scenario frame: 450 Image rows versus 420 other rows. -/
def df870 : DataFrame :=
  { dimCols := ["creative_type"]
    metricCols := ["roas"]
    rows := List.replicate 450 rowImage870 ++ List.replicate 420 rowVideo870 }

/-- A hypothesis with no segmentation (positional split). -/
def hypPos : Hypothesis :=
  { hypothesisId := "h1"
    statement := "stmt"
    rationale := "why"
    metricToTest := "roas"
    expectedDirection := Direction.increase
    confidence := ConfidenceLevel.medium }

/-- A hypothesis segmenting on `creative_type = Image`. -/
def hypSeg : Hypothesis :=
  { hypPos with hypothesisId := "h2"
                segmentDimension := some "creative_type"
                segmentValue := some "Image" }

/-- The evaluator output of a pass over an empty hypothesis list:
zero validated insights, replanning requested. -/
def emptyPassOutput : EvaluatorOutput :=
  { validationResults := []
    validatedInsights := []
    rejectedHypotheses := []
    needsReplan := true
    replanReason := some "Only 0 hypothesis validated. Need different analytical approach."
    suggestedFocusAreas := [] }

/-- A hypothesis whose metric is not a column of the 60-row frame. -/
def hypBad : Hypothesis :=
  { hypPos with hypothesisId := "hb", metricToTest := "ctr" }

/-- The caught-exception result that validating `hypBad` against `df60`
produces. -/
def vrBad : ValidationResult :=
  { hypothesisId := "hb"
    status := HypothesisStatus.needsMoreData
    confidenceScore := 0
    verdict := "Validation failed: ctr"
    actionability := "Unable to validate with current data" }

/-- The evaluator output of a pass over `[hypBad]` on `df60`. -/
def outBad : EvaluatorOutput :=
  { validationResults := [vrBad]
    validatedInsights := []
    rejectedHypotheses := ["hb"]
    needsReplan := true
    replanReason := some "Only 0 hypothesis validated. Need different analytical approach."
    suggestedFocusAreas := [] }

/-- One half of the positional split of `df60`. -/
def gW : List Row := List.replicate 30 rowA

/-- The `roas` column of `gW`. -/
def vW : List Rat := List.replicate 30 (2 : Rat)

/-- A validated result (used to build concrete result lists). -/
def vrValidated : ValidationResult :=
  { hypothesisId := "v"
    status := HypothesisStatus.validated
    confidenceScore := 1
    verdict := "ok"
    actionability := "act" }

/-- A rejected result (used to build concrete result lists). -/
def vrRejected : ValidationResult :=
  { hypothesisId := "r"
    status := HypothesisStatus.rejected
    confidenceScore := 0
    verdict := "no"
    actionability := "act" }

/-- Three results, one of them validated: the success rate 1/3 does not
round-trip through 2-decimal rounding. -/
def threeResults : List ValidationResult := [vrValidated, vrRejected, vrRejected]

/-- Ten results, four of them validated (the spec scenario for the success
rate). -/
def tenResults : List ValidationResult :=
  [vrValidated, vrValidated, vrValidated, vrValidated] ++ List.replicate 6 vrRejected

/-- An empty creative analysis (for report assembly). -/
def creative0 : CreativeAnalysis :=
  { topPerformingCreatives := []
    underperformingCreatives := []
    winningPatterns := []
    losingPatterns := []
    recommendations := [] }

/-- A concrete validated insight (for the recommendation-generator claims). -/
def insightW : Insight :=
  { insightId := "i1"
    title := "t"
    description := "d"
    hypothesis := hypPos
    validation := vrValidated
    impactScore := 10
    estimatedRevenueImpact := 0
    category := "performance"
    urgency := "high"
    periodStart := 1
    periodEnd := 1
    affectedCampaigns := [] }

/-- The count of results whose status is `rejected`
(`_suggest_focus_areas` line 230). -/
def rejectedCount (rs : List ValidationResult) : Nat :=
  (rs.filter (fun r => decide (r.status = HypothesisStatus.rejected))).length

lemma abs_roundHalfEven_sub_le (q : Rat) : |(roundHalfEven q : Rat) - q| ≤ 1/2 := by
  unfold roundHalfEven
  have h1 : ((Int.floor q : Int) : Rat) ≤ q := Int.floor_le q
  have h2 : q < ((Int.floor q : Int) : Rat) + 1 := Int.lt_floor_add_one q
  by_cases hlt : q - ((Int.floor q : Int) : Rat) < 1/2
  · rw [if_pos hlt, abs_le]
    constructor <;> linarith
  · rw [if_neg hlt]
    by_cases hgt : 1/2 < q - ((Int.floor q : Int) : Rat)
    · rw [if_pos hgt, abs_le]
      push_cast
      constructor <;> linarith
    · rw [if_neg hgt]
      have heq : q - ((Int.floor q : Int) : Rat) = 1/2 := le_antisymm (not_lt.mp hgt) (not_lt.mp hlt)
      by_cases hpar : Int.floor q % 2 = 0
      · rw [if_pos hpar, abs_le]
        constructor <;> linarith
      · rw [if_neg hpar, abs_le]
        push_cast
        constructor <;> linarith

lemma abs_roundTo_two_sub_le (q : Rat) : |roundTo 2 q - q| ≤ 1/200 := by
  have h := abs_roundHalfEven_sub_le (q * (10 : Rat) ^ 2)
  have heq : roundTo 2 q - q
      = ((roundHalfEven (q * (10 : Rat) ^ 2) : Rat) - q * (10 : Rat) ^ 2) / (10 : Rat) ^ 2 := by
    unfold roundTo
    ring
  rw [heq, abs_div]
  rw [div_le_iff₀ (by norm_num : (0 : Rat) < |(10 : Rat) ^ 2|)]
  have : |(10 : Rat) ^ 2| = 100 := by norm_num
  rw [this]
  linarith

lemma evaluatorExecute_ok_elim {k : StatKernel} {df : DataFrame} {hyps : List Hypothesis}
    {out : EvaluatorOutput} (h : evaluatorExecute k df hyps = Except.ok out) :
    ∃ rs inss rejs, evalLoop k df hyps = Except.ok (rs, inss, rejs)
      ∧ out.validationResults = rs ∧ out.validatedInsights = inss
      ∧ out.rejectedHypotheses = rejs
      ∧ out.needsReplan = decide (inss.length < 2)
      ∧ out.replanReason = (if inss.length < 2 then
          some ("Only " ++ toString inss.length
            ++ " hypothesis validated. Need different analytical approach.") else none)
      ∧ out.suggestedFocusAreas = suggestFocusAreas rs := by
  unfold evaluatorExecute at h
  cases he : evalLoop k df hyps with
  | error e => rw [he] at h; simp at h
  | ok t =>
    obtain ⟨rs, inss, rejs⟩ := t
    rw [he] at h
    simp only [Except.ok.injEq] at h
    subst h
    exact ⟨rs, inss, rejs, rfl, rfl, rfl, rfl, rfl, rfl, rfl⟩

lemma evalLoop_ok_spec {k : StatKernel} {df : DataFrame} :
    ∀ {hyps : List Hypothesis} {rs : List ValidationResult} {inss : List Insight}
      {rejs : List String}, evalLoop k df hyps = Except.ok (rs, inss, rejs) →
      inss.length = validatedCount rs ∧ rs.length = hyps.length := by
  intro hyps
  induction hyps with
  | nil =>
    intro rs inss rejs h
    simp only [evalLoop, Except.ok.injEq, Prod.mk.injEq] at h
    obtain ⟨rfl, rfl, rfl⟩ := h
    exact ⟨rfl, rfl⟩
  | cons hyp rest ih =>
    intro rs inss rejs h
    simp only [evalLoop] at h
    by_cases hv : (validateHypothesis k hyp df).status = HypothesisStatus.validated
    · rw [if_pos hv] at h
      cases hci : createInsight df hyp (validateHypothesis k hyp df) with
      | error e => rw [hci] at h; simp at h
      | ok ins =>
        rw [hci] at h
        cases hrec : evalLoop k df rest with
        | error e => rw [hrec] at h; simp at h
        | ok t =>
          obtain ⟨rs2, inss2, rejs2⟩ := t
          rw [hrec] at h
          simp only [Except.ok.injEq, Prod.mk.injEq] at h
          obtain ⟨rfl, rfl, rfl⟩ := h
          obtain ⟨ihl, ihn⟩ := ih hrec
          constructor
          · simp [validatedCount, List.filter, hv] at ihl ⊢
            simpa [validatedCount] using ihl
          · simpa using ihn
    · rw [if_neg hv] at h
      cases hrec : evalLoop k df rest with
      | error e => rw [hrec] at h; simp at h
      | ok t =>
        obtain ⟨rs2, inss2, rejs2⟩ := t
        rw [hrec] at h
        simp only [Except.ok.injEq, Prod.mk.injEq] at h
        obtain ⟨rfl, rfl, rfl⟩ := h
        obtain ⟨ihl, ihn⟩ := ih hrec
        constructor
        · simp [validatedCount, List.filter, hv] at ihl ⊢
          simpa [validatedCount] using ihl
        · simpa using ihn

lemma createInsight_isOk {df : DataFrame} (hyp : Hypothesis) (v : ValidationResult)
    (hrev : "revenue" ∈ df.metricCols) (hcamp : "campaign_name" ∈ df.dimCols)
    (hrows : df.rows ≠ []) : ∃ ins, createInsight df hyp v = Except.ok ins := by
  unfold createInsight
  rw [if_pos hrev]
  have hdays : ¬ (df.rows.map Row.date).dedup.length = 0 := by
    simp only [List.length_eq_zero, List.dedup_eq_nil, List.map_eq_nil_iff]
    exact hrows
  rw [if_neg hdays, if_pos hcamp]
  exact ⟨_, rfl⟩

lemma evalLoop_total {k : StatKernel} {df : DataFrame}
    (hrev : "revenue" ∈ df.metricCols) (hcamp : "campaign_name" ∈ df.dimCols)
    (hrows : df.rows ≠ []) :
    ∀ hyps : List Hypothesis, ∃ rs inss rejs,
      evalLoop k df hyps = Except.ok (rs, inss, rejs) := by
  intro hyps
  induction hyps with
  | nil => exact ⟨[], [], [], rfl⟩
  | cons hyp rest ih =>
    obtain ⟨rs, inss, rejs, hrec⟩ := ih
    by_cases hv : (validateHypothesis k hyp df).status = HypothesisStatus.validated
    · obtain ⟨ins, hci⟩ := createInsight_isOk hyp (validateHypothesis k hyp df) hrev hcamp hrows
      refine ⟨validateHypothesis k hyp df :: rs, ins :: inss, rejs, ?_⟩
      simp only [evalLoop, if_pos hv, hci, hrec]
    · refine ⟨validateHypothesis k hyp df :: rs, inss, hyp.hypothesisId :: rejs, ?_⟩
      simp only [evalLoop, if_neg hv, hrec]

lemma suggestFocusAreas_eq (rs : List ValidationResult) :
    suggestFocusAreas rs =
      (if rs.length < 2 * rejectedCount rs then
        ["Consider different analytical dimensions (e.g., time-based, audience-based)",
         "Look for interaction effects between variables"]
      else []) := by
  unfold suggestFocusAreas rejectedCount
  have hiff : ((rs.length : Rat) / 2
        < ((rs.filter (fun r => decide (r.status = HypothesisStatus.rejected))).length : Rat))
      ↔ rs.length
        < 2 * (rs.filter (fun r => decide (r.status = HypothesisStatus.rejected))).length := by
    rw [div_lt_iff₀ (by norm_num : (0 : Rat) < 2), mul_comm]
    exact_mod_cast Iff.rfl
  simp only [hiff]

lemma evaluatorExecute_outBad : evaluatorExecute kernelW df60 [hypBad] = Except.ok outBad := by
  have hval : validateHypothesis kernelW hypBad df60 = vrBad := by
    simp [validateHypothesis, validateHypothesisInner, groupsOf, hypBad, hypPos, df60,
      positionalSplit, List.take_replicate, List.drop_replicate, metricCol, vrBad,
      PyError.message]
  simp only [evaluatorExecute, evalLoop, hval]
  have hst : vrBad.status = HypothesisStatus.needsMoreData := rfl
  rw [if_neg (by rw [hst]; exact fun h => HypothesisStatus.noConfusion h)]
  simp [outBad, suggestFocusAreas_eq, rejectedCount, vrBad, hypBad, hypPos]
  decide

/-- C2: for a hypothesis whose two comparison groups both have at least 30
rows and whose statistical test completes with values `(p, d)`, the
resulting ValidationResult is `validated` iff `p < 0.05` and
`effect_size > 0.3`, and is `rejected` otherwise. -/
theorem c2_validated_iff_significant (k : StatKernel) (hyp : Hypothesis) (df : DataFrame)
    (ga gb : List Row) (va vb : List Rat) (p d : Rat)
    (hg : groupsOf hyp df = Except.ok (ga, gb))
    (ha : 30 ≤ ga.length) (hb : 30 ≤ gb.length)
    (hva : metricCol df ga hyp.metricToTest = Except.ok va)
    (hvb : metricCol df gb hyp.metricToTest = Except.ok vb)
    (hk : k va vb = Except.ok (p, d)) :
    ((validateHypothesis k hyp df).status = HypothesisStatus.validated
      ↔ (p < 1/20 ∧ 3/10 < d))
    ∧ (¬ (p < 1/20 ∧ 3/10 < d) →
      (validateHypothesis k hyp df).status = HypothesisStatus.rejected) := by
  have hgate : ¬ (ga.length < 30 ∨ gb.length < 30) := by omega
  have hred : validateHypothesis k hyp df = classify hyp p d va vb ga.length gb.length := by
    unfold validateHypothesis validateHypothesisInner
    simp only [hg]
    rw [if_neg hgate]
    simp only [hva, hvb, hk]
  rw [hred]
  simp only [classify]
  by_cases hc : p < 1/20 ∧ 3/10 < d
  · rw [if_pos hc]
    exact ⟨iff_of_true rfl hc, fun habs => absurd hc habs⟩
  · rw [if_neg hc]
    exact ⟨iff_of_false (fun h => HypothesisStatus.noConfusion h) hc, fun _ => rfl⟩

/-- Witness for C2 at a concrete input: a positional split of the 60-row
frame, with the kernel returning `p = 0.01`, `d = 0.4`. -/
theorem c2_validated_iff_significant_witness :
    groupsOf hypPos df60 = Except.ok (gW, gW)
    ∧ 30 ≤ gW.length
    ∧ metricCol df60 gW hypPos.metricToTest = Except.ok vW
    ∧ kernelW vW vW = Except.ok (1/100, 2/5)
    ∧ ((validateHypothesis kernelW hypPos df60).status = HypothesisStatus.validated
        ↔ ((1 : Rat)/100 < 1/20 ∧ (3 : Rat)/10 < 2/5)) := by
  have hg : groupsOf hypPos df60 = Except.ok (gW, gW) := by
    simp [groupsOf, hypPos, df60, positionalSplit, List.take_replicate, List.drop_replicate, gW]
  have hva : metricCol df60 gW hypPos.metricToTest = Except.ok vW := by
    simp [metricCol, df60, gW, vW, hypPos, List.map_replicate, Row.metricVal, rowA]
  have hk : kernelW vW vW = Except.ok (1/100, 2/5) := rfl
  refine ⟨hg, by simp [gW], hva, hk, ?_⟩
  exact (c2_validated_iff_significant kernelW hypPos df60 gW gW vW vW (1/100) (2/5)
    hg (by simp [gW]) (by simp [gW]) hva hva hk).1

/-- C3: when the group partition leaves either comparison group with fewer
than 30 rows, the evaluator short-circuits with `needs_more_data`,
confidence 0.3 and a verdict naming the two sample sizes, independently of
the statistical kernel (no test is run) and of the metric values. -/
theorem c3_sample_size_gate (k : StatKernel) (hyp : Hypothesis) (df : DataFrame)
    (ga gb : List Row)
    (hg : groupsOf hyp df = Except.ok (ga, gb))
    (hlt : ga.length < 30 ∨ gb.length < 30) :
    validateHypothesis k hyp df =
      { hypothesisId := hyp.hypothesisId
        status := HypothesisStatus.needsMoreData
        confidenceScore := 3/10
        verdict := "Insufficient sample size (n_a=" ++ toString ga.length ++ ", n_b="
          ++ toString gb.length ++ ")"
        actionability := "Collect more data before drawing conclusions" } := by
  unfold validateHypothesis validateHypothesisInner
  simp only [hg]
  rw [if_pos hlt]

/-- Witness for C3 at a concrete input: the 10-row frame splits 5/5. -/
theorem c3_sample_size_gate_witness :
    groupsOf hypPos df10 = Except.ok (List.replicate 5 rowA, List.replicate 5 rowA)
    ∧ ((List.replicate 5 rowA).length < 30 ∨ (List.replicate 5 rowA).length < 30)
    ∧ (validateHypothesis kernel0 hypPos df10).status = HypothesisStatus.needsMoreData
    ∧ (validateHypothesis kernel0 hypPos df10).confidenceScore = 3/10
    ∧ (validateHypothesis kernel0 hypPos df10).verdict
        = "Insufficient sample size (n_a=5, n_b=5)" := by
  have hg : groupsOf hypPos df10 = Except.ok (List.replicate 5 rowA, List.replicate 5 rowA) := by
    simp [groupsOf, hypPos, df10, positionalSplit, List.take_replicate, List.drop_replicate]
  have hlt : (List.replicate 5 rowA).length < 30 ∨ (List.replicate 5 rowA).length < 30 := by
    simp
  have happ := c3_sample_size_gate kernel0 hypPos df10 (List.replicate 5 rowA)
    (List.replicate 5 rowA) hg hlt
  refine ⟨hg, hlt, by rw [happ], by rw [happ], ?_⟩
  rw [happ]
  rfl

/-- C4: whenever the evaluator execute produces an output, the number of
validated insights equals the number of validation results whose status is
`validated`. -/
theorem c4_insight_count_invariant (k : StatKernel) (df : DataFrame)
    (hyps : List Hypothesis) (out : EvaluatorOutput)
    (h : evaluatorExecute k df hyps = Except.ok out) :
    out.validatedInsights.length = validatedCount out.validationResults := by
  obtain ⟨rs, inss, rejs, hloop, hrs, hinss, -, -, -, -⟩ := evaluatorExecute_ok_elim h
  rw [hrs, hinss]
  exact (evalLoop_ok_spec hloop).1

/-- Witness for C4 at a concrete input: one hypothesis whose metric column
is missing, so zero results validate. -/
theorem c4_insight_count_invariant_witness :
    evaluatorExecute kernelW df60 [hypBad] = Except.ok outBad
    ∧ outBad.validatedInsights.length = validatedCount outBad.validationResults :=
  ⟨evaluatorExecute_outBad,
   c4_insight_count_invariant kernelW df60 [hypBad] outBad evaluatorExecute_outBad⟩

/-- C5: the evaluator output requests replanning exactly when fewer than 2
hypotheses validated in the pass, and the replanning reason then states
that count. -/
theorem c5_needs_replan_iff (k : StatKernel) (df : DataFrame)
    (hyps : List Hypothesis) (out : EvaluatorOutput)
    (h : evaluatorExecute k df hyps = Except.ok out) :
    (out.needsReplan = true ↔ validatedCount out.validationResults < 2)
    ∧ (out.needsReplan = true →
      out.replanReason = some ("Only " ++ toString (validatedCount out.validationResults)
        ++ " hypothesis validated. Need different analytical approach.")) := by
  obtain ⟨rs, inss, rejs, hloop, hrs, hinss, -, hnr, hrr, -⟩ := evaluatorExecute_ok_elim h
  have hcount : inss.length = validatedCount rs := (evalLoop_ok_spec hloop).1
  rw [hrs, hnr, hrr, hcount]
  constructor
  · exact decide_eq_true_iff
  · intro hd
    rw [if_pos (decide_eq_true_iff.mp hd)]

/-- Witness for C5 at a concrete input: the pass over `[hypBad]` validates
0 hypotheses, requests replanning, and names the count 0. -/
theorem c5_needs_replan_iff_witness :
    evaluatorExecute kernelW df60 [hypBad] = Except.ok outBad
    ∧ ((outBad.needsReplan = true ↔ validatedCount outBad.validationResults < 2)
      ∧ (outBad.needsReplan = true →
        outBad.replanReason = some ("Only " ++ toString (validatedCount outBad.validationResults)
          ++ " hypothesis validated. Need different analytical approach."))) :=
  ⟨evaluatorExecute_outBad,
   c5_needs_replan_iff kernelW df60 [hypBad] outBad evaluatorExecute_outBad⟩

/-- C10: the suggested focus areas of every produced evaluator output are
the fixed two-suggestion list exactly when strictly more than half of the
validation results are rejected (results with other statuses count toward
the total only), and the empty list otherwise. -/
theorem c10_focus_areas (k : StatKernel) (df : DataFrame)
    (hyps : List Hypothesis) (out : EvaluatorOutput)
    (h : evaluatorExecute k df hyps = Except.ok out) :
    out.suggestedFocusAreas =
      (if out.validationResults.length < 2 * rejectedCount out.validationResults then
        ["Consider different analytical dimensions (e.g., time-based, audience-based)",
         "Look for interaction effects between variables"]
      else []) := by
  obtain ⟨rs, inss, rejs, hloop, hrs, -, -, -, -, hfa⟩ := evaluatorExecute_ok_elim h
  rw [hrs, hfa]
  exact suggestFocusAreas_eq rs

/-- Witness for C10 at a concrete input: one `needs_more_data` result, zero
rejected, so no focus areas are suggested. -/
theorem c10_focus_areas_witness :
    evaluatorExecute kernelW df60 [hypBad] = Except.ok outBad
    ∧ outBad.suggestedFocusAreas =
      (if outBad.validationResults.length < 2 * rejectedCount outBad.validationResults then
        ["Consider different analytical dimensions (e.g., time-based, audience-based)",
         "Look for interaction effects between variables"]
      else []) :=
  ⟨evaluatorExecute_outBad,
   c10_focus_areas kernelW df60 [hypBad] outBad evaluatorExecute_outBad⟩

/-- C1 counterexample: a run with `max_replans = 2` in which every
evaluation pass yields 0 validated insights (each pass is the evaluator
output over an empty hypothesis list) returns the final report after
iteration 2 — the loop never performs a 3rd iteration, because replanning
is only allowed while the iteration count is strictly below
`max_replans`. -/
theorem c1_no_third_iteration_counterexample :
    evaluatorExecute kernel0 df0 [] = Except.ok emptyPassOutput
    ∧ emptyPassOutput.validatedInsights.length = 0
    ∧ orchestratorExecute (fun _ => emptyPassOutput) 2 =
        OrchestratorResult.report 2 emptyPassOutput := by
  refine ⟨?_, rfl, ?_⟩
  · simp [evaluatorExecute, evalLoop, suggestFocusAreas, emptyPassOutput]
    decide
  · simp [orchestratorExecute, orchLoop, emptyPassOutput]

/-- C1 amended: for every run of the orchestrator with `max_replans = 2`
whose evaluation passes all come from the evaluator and yield 0 validated
insights, the loop performs exactly 2 iterations and, on that final
allowed iteration, proceeds to recommendation generation and returns a
final report rather than raising the exhaustion error. -/
theorem c1_final_iteration_amended (evalOutputs : Nat → EvaluatorOutput)
    (hpass : ∀ i, ∃ k df hyps, evaluatorExecute k df hyps = Except.ok (evalOutputs i)
      ∧ (evalOutputs i).validatedInsights.length = 0) :
    orchestratorExecute evalOutputs 2 = OrchestratorResult.report 2 (evalOutputs 2) := by
  have h1 : (evalOutputs 1).needsReplan = true := by
    obtain ⟨k, df, hyps, hok, hlen⟩ := hpass 1
    obtain ⟨rs, inss, rejs, -, -, hinss, -, hnr, -, -⟩ := evaluatorExecute_ok_elim hok
    rw [hnr, decide_eq_true_iff, ← hinss, hlen]
    omega
  simp [orchestratorExecute, orchLoop, h1]

/-- Witness for the amended C1: the constant sequence of evaluator passes
over an empty hypothesis list. -/
theorem c1_final_iteration_amended_witness :
    (∀ i : Nat, ∃ k df hyps,
      evaluatorExecute k df hyps = Except.ok ((fun _ : Nat => emptyPassOutput) i)
      ∧ ((fun _ : Nat => emptyPassOutput) i).validatedInsights.length = 0)
    ∧ orchestratorExecute (fun _ : Nat => emptyPassOutput) 2 =
        OrchestratorResult.report 2 emptyPassOutput := by
  have hp : ∀ i : Nat, ∃ k df hyps,
      evaluatorExecute k df hyps = Except.ok ((fun _ : Nat => emptyPassOutput) i)
      ∧ ((fun _ : Nat => emptyPassOutput) i).validatedInsights.length = 0 := by
    intro i
    refine ⟨kernel0, df0, [], ?_, rfl⟩
    simp [evaluatorExecute, evalLoop, suggestFocusAreas, emptyPassOutput]
    decide
  exact ⟨hp, c1_final_iteration_amended (fun _ : Nat => emptyPassOutput) hp⟩

set_option maxRecDepth 10000 in
/-- C6 counterexample: in the spec scenario (segment `creative_type=Image`
with 450 rows versus 420 rows, test yielding `p = 0.018`,
`effect_size = 0.52`) the confidence score is not 0.66: the code scores
the effect term 1.0 (since 0.52 > 0.5) and the sample term 1.0 (since
min(450,420) > 100). -/
theorem c6_confidence_scenario_counterexample :
    (validateHypothesis kernel870 hypSeg df870).confidenceScore ≠ 33/50 := by
  have hg : groupsOf hypSeg df870 =
      Except.ok (List.replicate 450 rowImage870, List.replicate 420 rowVideo870) := by
    simp [groupsOf, hypSeg, hypPos, df870, List.filter_append, List.filter_replicate,
      Row.dimVal, rowImage870, rowVideo870]
  have hred : validateHypothesis kernel870 hypSeg df870 =
      classify hypSeg (9/500) (13/25) (List.replicate 450 (5 : Rat))
        (List.replicate 420 (3 : Rat)) 450 420 := by
    unfold validateHypothesis validateHypothesisInner
    simp only [hg]
    rw [if_neg (by simp)]
    simp [metricCol, df870, hypSeg, hypPos, List.map_replicate, Row.metricVal,
      rowImage870, rowVideo870, kernel870]
  rw [hred]
  simp only [classify]
  rw [if_pos (by norm_num)]
  norm_num [roundTo, roundHalfEven]

set_option maxRecDepth 10000 in
/-- C6 amended: in the spec scenario the hypothesis is validated, with
confidence score 1.0 (significance term 1.0 as p < 0.05, effect term 1.0
as 0.52 > 0.5, sample term 1.0 as min(450,420) > 100). -/
theorem c6_confidence_scenario_amended :
    groupsOf hypSeg df870 =
      Except.ok (List.replicate 450 rowImage870, List.replicate 420 rowVideo870)
    ∧ (validateHypothesis kernel870 hypSeg df870).status = HypothesisStatus.validated
    ∧ (validateHypothesis kernel870 hypSeg df870).confidenceScore = 1 := by
  have hg : groupsOf hypSeg df870 =
      Except.ok (List.replicate 450 rowImage870, List.replicate 420 rowVideo870) := by
    simp [groupsOf, hypSeg, hypPos, df870, List.filter_append, List.filter_replicate,
      Row.dimVal, rowImage870, rowVideo870]
  have hred : validateHypothesis kernel870 hypSeg df870 =
      classify hypSeg (9/500) (13/25) (List.replicate 450 (5 : Rat))
        (List.replicate 420 (3 : Rat)) 450 420 := by
    unfold validateHypothesis validateHypothesisInner
    simp only [hg]
    rw [if_neg (by simp)]
    simp [metricCol, df870, hypSeg, hypPos, List.map_replicate, Row.metricVal,
      rowImage870, rowVideo870, kernel870]
  refine ⟨hg, ?_, ?_⟩ <;>
    · rw [hred]
      simp only [classify]
      rw [if_pos (by norm_num)]
      try norm_num [roundTo, roundHalfEven]

/-- C7 counterexample: a loadable dataset (60 rows, `date` and `roas` and
`creative_type` columns, but no `revenue` column) on which one hypothesis
validates makes the evaluator execute raise `KeyError: revenue` out of
`_create_insight`, which runs outside the per-hypothesis exception
handler. -/
theorem c7_never_raises_counterexample :
    evaluatorExecute kernelW dfNoRev [hypSeg] = Except.error (PyError.keyError "revenue") := by
  have hval : validateHypothesis kernelW hypSeg dfNoRev =
      classify hypSeg (1/100) (2/5) (List.replicate 30 (2 : Rat))
        (List.replicate 30 (1 : Rat)) 30 30 := by
    have hg : groupsOf hypSeg dfNoRev =
        Except.ok (List.replicate 30 rowImg, List.replicate 30 rowVid) := by
      simp [groupsOf, hypSeg, hypPos, dfNoRev, List.filter_append, List.filter_replicate,
        Row.dimVal, rowImg, rowVid]
    unfold validateHypothesis validateHypothesisInner
    simp only [hg]
    rw [if_neg (by simp)]
    simp [metricCol, dfNoRev, hypSeg, hypPos, List.map_replicate, Row.metricVal,
      rowImg, rowVid, kernelW]
  have hst : (validateHypothesis kernelW hypSeg dfNoRev).status = HypothesisStatus.validated := by
    rw [hval]
    simp only [classify]
    rw [if_pos (by norm_num)]
  have hci : createInsight dfNoRev hypSeg (validateHypothesis kernelW hypSeg dfNoRev)
      = Except.error (PyError.keyError "revenue") := by
    unfold createInsight
    rw [if_neg (by simp [dfNoRev])]
  simp only [evaluatorExecute, evalLoop, if_pos hst, hci]

/-- C7 amended: provided the dataset carries the `revenue` and
`campaign_name` columns used by insight enrichment and has at least one
row, the evaluator execute always returns an output with one validation
result per hypothesis; and any exception inside the per-hypothesis
validation is caught and converted into a `needs_more_data` result with
confidence 0.0 and the message embedded in the verdict. -/
theorem c7_guarded_execute_amended (k : StatKernel) (df : DataFrame) (hyps : List Hypothesis)
    (hrev : "revenue" ∈ df.metricCols) (hcamp : "campaign_name" ∈ df.dimCols)
    (hrows : df.rows ≠ []) :
    (∃ out, evaluatorExecute k df hyps = Except.ok out
      ∧ out.validationResults.length = hyps.length)
    ∧ ∀ hyp e, validateHypothesisInner k hyp df = Except.error e →
        validateHypothesis k hyp df =
          { hypothesisId := hyp.hypothesisId
            status := HypothesisStatus.needsMoreData
            confidenceScore := 0
            verdict := "Validation failed: " ++ e.message
            actionability := "Unable to validate with current data" } := by
  constructor
  · obtain ⟨rs, inss, rejs, hloop⟩ := evalLoop_total hrev hcamp hrows hyps
    refine ⟨{ validationResults := rs
              validatedInsights := inss
              rejectedHypotheses := rejs
              needsReplan := decide (inss.length < 2)
              replanReason := if inss.length < 2 then
                some ("Only " ++ toString inss.length
                  ++ " hypothesis validated. Need different analytical approach.") else none
              suggestedFocusAreas := suggestFocusAreas rs }, ?_, ?_⟩
    · unfold evaluatorExecute
      rw [hloop]
    · exact (evalLoop_ok_spec hloop).2
  · intro hyp e he
    unfold validateHypothesis
    rw [he]

/-- Witness for the amended C7: the 60-row frame with all columns, and one
hypothesis whose metric column is missing (its exception is caught). -/
theorem c7_guarded_execute_amended_witness :
    ("revenue" ∈ df60.metricCols ∧ "campaign_name" ∈ df60.dimCols ∧ df60.rows ≠ [])
    ∧ (∃ out, evaluatorExecute kernelW df60 [hypBad] = Except.ok out
        ∧ out.validationResults.length = [hypBad].length) := by
  have hrev : "revenue" ∈ df60.metricCols := by simp [df60]
  have hcamp : "campaign_name" ∈ df60.dimCols := by simp [df60]
  have hrows : df60.rows ≠ [] := by simp [df60]
  exact ⟨⟨hrev, hcamp, hrows⟩,
    (c7_guarded_execute_amended kernelW df60 [hypBad] hrev hcamp hrows).1⟩

/-- C8 counterexample: with 3 hypotheses of which 1 validated, the stored
success rate is `round(1/3, 2) = 0.33`, which differs from the exact
quotient 1/3. -/
theorem c8_success_rate_counterexample :
    (createFinalReport "q" (1, 2) [] creative0 1 threeResults).validationSuccessRate
      ≠ (validatedCount threeResults : Rat) / (threeResults.length : Rat) := by
  have hc : validatedCount threeResults = 1 := by
    simp [validatedCount, threeResults, vrValidated, vrRejected, List.filter]
  have hl : threeResults.length = 3 := by simp [threeResults]
  rw [hc, hl]
  have hrate : (createFinalReport "q" (1, 2) [] creative0 1 threeResults).validationSuccessRate
      = roundTo 2 ((1 : Rat) / 3) := by
    simp [createFinalReport, hc, hl]
  rw [hrate]
  norm_num [roundTo, roundHalfEven]

/-- C8 amended: the stored success rate is the quotient
validated/total rounded to 2 decimal places (hence within 0.005 of the
exact quotient), and 0 when no hypotheses were evaluated. -/
theorem c8_success_rate_amended (query : String) (period : Nat × Nat)
    (ins : List Insight) (cr : CreativeAnalysis) (iters : Nat)
    (rs : List ValidationResult) :
    (rs.length = 0 →
      (createFinalReport query period ins cr iters rs).validationSuccessRate = 0)
    ∧ (0 < rs.length →
      (createFinalReport query period ins cr iters rs).validationSuccessRate
          = roundTo 2 ((validatedCount rs : Rat) / (rs.length : Rat))
        ∧ |(createFinalReport query period ins cr iters rs).validationSuccessRate
            - (validatedCount rs : Rat) / (rs.length : Rat)| ≤ 1/200) := by
  constructor
  · intro h0
    simp [createFinalReport, h0]
    norm_num [roundTo, roundHalfEven]
  · intro hpos
    have hr : (createFinalReport query period ins cr iters rs).validationSuccessRate
        = roundTo 2 ((validatedCount rs : Rat) / (rs.length : Rat)) := by
      simp [createFinalReport, hpos]
    exact ⟨hr, by rw [hr]; exact abs_roundTo_two_sub_le _⟩

/-- Witness for the amended C8: 10 results with 4 validated give rate
`round(0.4, 2) = 0.4`. -/
theorem c8_success_rate_amended_witness :
    0 < tenResults.length
    ∧ ((createFinalReport "q" (1, 2) [] creative0 1 tenResults).validationSuccessRate
          = roundTo 2 ((validatedCount tenResults : Rat) / (tenResults.length : Rat))
        ∧ |(createFinalReport "q" (1, 2) [] creative0 1 tenResults).validationSuccessRate
            - (validatedCount tenResults : Rat) / (tenResults.length : Rat)| ≤ 1/200) :=
  ⟨by simp [tenResults],
   (c8_success_rate_amended "q" (1, 2) [] creative0 1 tenResults).2 (by simp [tenResults])⟩

/-- C9 counterexample: with a nonempty insight list and a parsed, validated
response containing zero recommendations, the generator raises
`ZeroDivisionError` (from averaging the priority scores of an empty list
in the success log event), not `ValueError`. -/
theorem c9_zero_recommendations_counterexample :
    creativeGeneratorFinalize [insightW] [] [] [] [] [] = Except.error PyError.zeroDivisionError
    ∧ raisedValueError (creativeGeneratorFinalize [insightW] [] [] [] [] []) = false := by
  constructor <;> rfl

/-- C9 amended: for every nonempty validated-insight list, if the parsed
and validated response contains zero recommendations, the generator
execute raises `ZeroDivisionError` rather than returning a
`CreativeAnalysis` with an empty recommendation list. -/
theorem c9_zero_recommendations_amended (insights : List Insight)
    (tops unders wins loses : List String)
    (_hne : insights ≠ []) :
    creativeGeneratorFinalize insights [] tops unders wins loses
      = Except.error PyError.zeroDivisionError := by
  unfold creativeGeneratorFinalize pyAverage
  rfl

/-- Witness for the amended C9 at a concrete nonempty insight list. -/
theorem c9_zero_recommendations_amended_witness :
    [insightW] ≠ ([] : List Insight)
    ∧ creativeGeneratorFinalize [insightW] [] [] [] [] []
        = Except.error PyError.zeroDivisionError :=
  ⟨by simp,
   c9_zero_recommendations_amended [insightW] [] [] [] [] (by simp)⟩
